import Mathlib

/-!
Shallow embedding of the MapReduceAI task scheduler
(src/task.py and src/task_scheduler.py).

Python values are modelled by `Val` (Python `None` is the value
`Val.pynone`); exceptions by `Err`; a task body's behaviour on a given
attempt by `BodyOutcome` (`hang` means the body does not complete within
the configured timeout; with no timeout configured a hanging body makes
the whole call diverge, modelled by `Option`).  Python `dict`s keyed by
strings are modelled as functions `String → Option _`; the scheduler's
`defaultdict` graph is an insertion-ordered association list because the
iteration order of its keys matters to `topological_sort`.
-/

inductive Val where
  | pynone : Val
  | nat : Nat → Val
  | str : String → Val
  deriving DecidableEq, Repr

/-- Exceptions that flow through the runtime: `timeout` is
`concurrent.futures.TimeoutError`; `bodyFail` an arbitrary exception
raised by a task body; `depMissing`/`depFailed` the exceptions raised in
`Task.__call__` during input resolution. -/
inductive Err where
  | timeout : Err
  | bodyFail : Nat → Err
  | depMissing : String → Err
  | depFailed : String → Err
  deriving DecidableEq, Repr

/-- What a task body does on one attempt: return a value, raise an
exception, or fail to complete within the configured timeout. -/
inductive BodyOutcome where
  | ok : Val → BodyOutcome
  | fail : Err → BodyOutcome
  | hang : BodyOutcome
  deriving DecidableEq, Repr

/-- src/task.py `Dependency` (NamedTuple). -/
structure Dependency where
  task_id : String
  required : Bool := true
  deriving DecidableEq, Repr

/-- src/task.py `RetryPolicy` dataclass with its field defaults. -/
structure RetryPolicy where
  max_retries : Nat := 3
  initial_delay : ℚ := 1
  max_delay : ℚ := 30
  backoff_factor : ℚ := 2
  jitter : Bool := true
  deriving DecidableEq, Repr

/-- src/task.py `RetryPolicy.get_delay`.  The draw of
`random.uniform(0.5, 1.5)` is passed in as the parameter `u`; it is used
only when `jitter` is true. -/
def RetryPolicy.get_delay (p : RetryPolicy) (attempt : Nat) (u : ℚ) : ℚ :=
  let delay := min (p.initial_delay * p.backoff_factor ^ (attempt - 1)) p.max_delay
  if p.jitter then delay * u else delay

/-- src/task.py `TaskResult` dataclass.  `output` is a `Val` because in
Python it is `Any` and the sentinel for "no output" is the value `None`
(`Val.pynone`); `error` is `Option Err` because its sentinel `None` is a
distinct default argument. -/
structure TaskResult where
  task_id : String
  output : Val
  error : Option Err := none
  completed : Bool := false
  timed_out : Bool := false
  attempt : Nat := 1
  total_attempts : Nat := 1
  deriving DecidableEq, Repr

/-- src/task.py `TaskRegistry.results`: a dict from task id to
`TaskResult` (the lock is irrelevant in this sequentialised model). -/
abbrev TaskRegistry : Type := String → Option TaskResult

def emptyRegistry : TaskRegistry := fun _ => none

def TaskRegistry.store (reg : TaskRegistry) (id : String) (r : TaskResult) :
    TaskRegistry :=
  fun k => if k = id then some r else reg k

/-- src/task.py `TaskRegistry.set_result`. -/
def TaskRegistry.set_result (reg : TaskRegistry) (task_id : String) (output : Val)
    (attempt : Nat := 1) (total_attempts : Nat := 1) : TaskRegistry :=
  reg.store task_id
    { task_id := task_id, output := output, completed := true,
      attempt := attempt, total_attempts := total_attempts }

/-- src/task.py `TaskRegistry.set_error`.  The `error` argument is an
`Option` because the caller `_execute_with_retry` passes `last_error`,
which is `None` when the retry loop made no attempts. -/
def TaskRegistry.set_error (reg : TaskRegistry) (task_id : String) (error : Option Err)
    (attempt : Nat := 1) (total_attempts : Nat := 1) : TaskRegistry :=
  reg.store task_id
    { task_id := task_id, output := Val.pynone, error := error, completed := true,
      attempt := attempt, total_attempts := total_attempts }

/-- src/task.py `TaskRegistry.set_timeout`: stores a `TimeoutError` and
`timed_out := true`. -/
def TaskRegistry.set_timeout (reg : TaskRegistry) (task_id : String)
    (attempt : Nat := 1) (total_attempts : Nat := 1) : TaskRegistry :=
  reg.store task_id
    { task_id := task_id, output := Val.pynone, error := some Err.timeout,
      completed := true, timed_out := true,
      attempt := attempt, total_attempts := total_attempts }

/-- src/task.py `TaskRegistry.get_result`. -/
def TaskRegistry.get_result (reg : TaskRegistry) (task_id : String) :
    Option TaskResult :=
  reg task_id

/-- src/task.py `Task`.  The abstract `execute` body is a field mapping
the resolved input dict and the (1-indexed) attempt number to what that
attempt does.  `retry_policy` is an `Option` because the Python
attribute could in principle hold `None` (which is exactly what
`TaskScheduler.add_task` tests for), although `Task.__init__` always
stores a policy. -/
structure PyTask where
  task_id : String
  dependencies : List Dependency
  timeout : Option ℚ
  retry_policy : Option RetryPolicy
  execute : (String → Option Val) → Nat → BodyOutcome

/-- src/task.py `Task.__init__`: required dependencies first, then
optional ones; `retry_policy or RetryPolicy()` replaces an absent policy
with the class-default `RetryPolicy()`. -/
def PyTask.init (task_id : String) (required_dependencies : List String)
    (optional_dependencies : List String) (timeout : Option ℚ)
    (retry_policy : Option RetryPolicy)
    (execute : (String → Option Val) → Nat → BodyOutcome) : PyTask :=
  { task_id := task_id
    dependencies :=
      required_dependencies.map (fun dep => { task_id := dep, required := true })
        ++ optional_dependencies.map (fun dep => { task_id := dep, required := false })
    timeout := timeout
    retry_policy := some (retry_policy.getD {})
    execute := execute }

/-- src/task.py `PyTask.all_dependency_ids`. -/
def PyTask.all_dependency_ids (t : PyTask) : List String :=
  t.dependencies.map (·.task_id)

/-- src/task.py `PyTask.required_dependency_ids`. -/
def PyTask.required_dependency_ids (t : PyTask) : List String :=
  (t.dependencies.filter (·.required)).map (·.task_id)

/-- The policy `_execute_with_retry` reads via `self.retry_policy`
(always `some` for a task built by `PyTask.init`). -/
def PyTask.policy (t : PyTask) : RetryPolicy :=
  t.retry_policy.getD {}

/-- Outcome of one `Task.__call__`: the updated registry, the final
state of the task's cancel event, how many times the body was submitted
for execution, the value `should_cancel()` would have returned at the
start of each attempt, and the exception re-raised by `__call__` on the
task's thread (dependency-resolution failures only). -/
structure CallOut where
  registry : TaskRegistry
  cancel : Bool
  invocations : Nat
  flags : List Bool
  raised : Option Err

/-- Input resolution loop of src/task.py `Task.__call__` (lines
200-214): a missing or errored required dependency raises; a missing or
errored optional dependency is skipped; otherwise the dependency's
output joins the input dict. -/
def resolveGo (reg : TaskRegistry) :
    List Dependency → (String → Option Val) → Except Err (String → Option Val)
  | [], inputs => .ok inputs
  | d :: rest, inputs =>
    match reg.get_result d.task_id with
    | none =>
      if d.required then .error (Err.depMissing d.task_id)
      else resolveGo reg rest inputs
    | some r =>
      if d.required then
        if r.error.isSome then .error (Err.depFailed d.task_id)
        else resolveGo reg rest
          (fun k => if k = d.task_id then some r.output else inputs k)
      else
        if r.error.isSome then resolveGo reg rest inputs
        else resolveGo reg rest
          (fun k => if k = d.task_id then some r.output else inputs k)

def resolveInputs (t : PyTask) (reg : TaskRegistry) :
    Except Err (String → Option Val) :=
  resolveGo reg t.dependencies (fun _ => none)

/-- Finalisation after the retry loop of `_execute_with_retry` (lines
183-195): a `TimeoutError` as last error goes to `set_timeout`,
anything else (including `None`) to `set_error`; both record
`attempt - 1` twice, where `attempt` has just left the loop. -/
def finalizeRetry (t : PyTask) (reg : TaskRegistry) (lastError : Option Err)
    (attempt : Nat) : TaskRegistry :=
  if lastError = some Err.timeout then
    reg.set_timeout t.task_id (attempt - 1) (attempt - 1)
  else
    reg.set_error t.task_id lastError (attempt - 1) (attempt - 1)

/-- The `while attempt <= self.retry_policy.max_retries` loop of
src/task.py `_execute_with_retry`, one constructor step per iteration;
`remaining` counts the iterations the guard still allows, so the call
from `PyTask.call` passes `remaining := max_retries` and `attempt := 1`.
On an attempt that exceeds the timeout, `_execute_with_timeout` sets the
cancel event and the loop records a `TimeoutError`; a body exception is
recorded as the last error; a success stores the result and returns.  A
body that hangs with no timeout configured never returns (`none`). -/
def retryGo (t : PyTask) (inputs : String → Option Val) :
    Nat → Nat → TaskRegistry → Option Err → Bool → Nat → List Bool →
    Option CallOut
  | 0, attempt, reg, lastError, cancel, invoc, flags =>
    some { registry := finalizeRetry t reg lastError attempt,
           cancel := cancel, invocations := invoc, flags := flags,
           raised := none }
  | remaining + 1, attempt, reg, _lastError, cancel, invoc, flags =>
    match t.timeout with
    | some _ =>
      match t.execute inputs attempt with
      | .ok v =>
        some { registry := reg.set_result t.task_id v attempt attempt,
               cancel := cancel, invocations := invoc + 1,
               flags := flags ++ [cancel], raised := none }
      | .hang =>
        retryGo t inputs remaining (attempt + 1) reg (some Err.timeout) true
          (invoc + 1) (flags ++ [cancel])
      | .fail e =>
        retryGo t inputs remaining (attempt + 1) reg (some e) cancel
          (invoc + 1) (flags ++ [cancel])
    | none =>
      match t.execute inputs attempt with
      | .ok v =>
        some { registry := reg.set_result t.task_id v attempt attempt,
               cancel := cancel, invocations := invoc + 1,
               flags := flags ++ [cancel], raised := none }
      | .hang => none
      | .fail e =>
        retryGo t inputs remaining (attempt + 1) reg (some e) cancel
          (invoc + 1) (flags ++ [cancel])

/-- src/task.py `Task.__call__`: resolve inputs, then run
`_execute_with_retry`; a dependency-resolution failure is stored with
`set_error` (default `attempt = total_attempts = 1`) and re-raised, and
the retry loop is never entered. -/
def PyTask.call (t : PyTask) (reg : TaskRegistry) : Option CallOut :=
  match resolveInputs t reg with
  | .error e =>
    some { registry := reg.set_error t.task_id (some e) 1 1,
           cancel := false, invocations := 0, flags := [], raised := some e }
  | .ok inputs =>
    retryGo t inputs t.policy.max_retries 1 reg none false 0 []

/-! ## The scheduler (src/task_scheduler.py) -/

/-- The scheduler's `defaultdict(list)` graph, as an insertion-ordered
association list from dependency id to the list of dependent ids. -/
abbrev Graph : Type := List (String × List String)

/-- `self.graph[k].append(v)`: appends to the existing entry, or inserts
the key at the end (the `defaultdict` behaviour). -/
def graphAppend (g : Graph) (k v : String) : Graph :=
  match g with
  | [] => [(k, [v])]
  | (k', vs) :: rest =>
    if k' = k then (k', vs ++ [v]) :: rest else (k', vs) :: graphAppend rest k v

/-- Keys of the graph in insertion order (`for task in self.graph`). -/
def graphKeys (g : Graph) : List String :=
  g.map Prod.fst

/-- `self.graph[task]` read inside `topological_sort` (a missing key
reads as the empty list). -/
def graphGet (g : Graph) (k : String) : List String :=
  (List.lookup k g).getD []

/-- Total number of recorded edges. -/
def totalEdges (g : Graph) : Nat :=
  (g.map (fun p => p.2.length)).sum

def updInt (f : String → Int) (k : String) (v : Int) : String → Int :=
  fun k' => if k' = k then v else f k'

/-- src/task_scheduler.py `TaskScheduler`. -/
structure TaskScheduler where
  graph : Graph
  in_degree : String → Int
  tasks : String → Option PyTask
  registry : TaskRegistry
  default_timeout : Option ℚ
  default_retry_policy : RetryPolicy

/-- src/task_scheduler.py `TaskScheduler.__init__`. -/
def TaskScheduler.mk0 (default_timeout : Option ℚ)
    (default_retry_policy : Option RetryPolicy) : TaskScheduler :=
  { graph := []
    in_degree := fun _ => 0
    tasks := fun _ => none
    registry := emptyRegistry
    default_timeout := default_timeout
    default_retry_policy := default_retry_policy.getD {} }

/-- The default application at the top of `add_task` (lines 21-24 of
src/task_scheduler.py): the scheduler's timeout fills a missing task
timeout; the scheduler's retry policy fills a `None` retry policy
(which `PyTask.init` never leaves behind). -/
def applyDefaults (s : TaskScheduler) (t : PyTask) : PyTask :=
  let t1 := if t.timeout.isNone && s.default_timeout.isSome then
      { t with timeout := s.default_timeout } else t
  if t1.retry_policy.isNone then
    { t1 with retry_policy := some s.default_retry_policy } else t1

/-- The dependency loop of `add_task` (lines 27-29): one
`graph[dep_id].append(task_id)` and one `in_degree[task_id] += 1` per
declared dependency. -/
def addDeps (tid : String) : List String → Graph → (String → Int) →
    Graph × (String → Int)
  | [], g, indeg => (g, indeg)
  | d :: rest, g, indeg =>
    addDeps tid rest (graphAppend g d tid) (updInt indeg tid (indeg tid + 1))

/-- src/task_scheduler.py `TaskScheduler.add_task`. -/
def TaskScheduler.add_task (s : TaskScheduler) (t : PyTask) : TaskScheduler :=
  let t2 := applyDefaults s t
  let gi := addDeps t2.task_id (t2.all_dependency_ids) s.graph s.in_degree
  let g2 := if (List.lookup t2.task_id gi.1).isSome then gi.1
            else gi.1 ++ [(t2.task_id, [])]
  { s with
    tasks := fun k => if k = t2.task_id then some t2 else s.tasks k
    graph := g2
    in_degree := gi.2 }

/-- Processing of one popped queue element inside the `while queue` loop
of `topological_sort`: decrement each dependent's in-degree, collecting
those that reach exactly zero. -/
def topoStepNode (g : Graph) (st : (String → Int) × List String)
    (task : String) : (String → Int) × List String :=
  (graphGet g task).foldl
    (fun st2 dependent =>
      let d := st2.1 dependent - 1
      (updInt st2.1 dependent d,
       if d = 0 then st2.2 ++ [dependent] else st2.2))
    st

/-- One full pass of the inner `for _ in range(len(queue))` loop. -/
def topoRound (g : Graph) (indeg : String → Int) (queue : List String) :
    (String → Int) × List String :=
  queue.foldl (topoStepNode g) (indeg, [])

/-- The `while queue` loop: each iteration consumes the previous level
and produces the next; it stops when no new zero-in-degree node appears.
`fuel` bounds the number of rounds (the caller passes more rounds than
any run can take). -/
def topoLoop (g : Graph) : Nat → (String → Int) → List String →
    List (List String)
  | 0, _, _ => []
  | fuel + 1, indeg, queue =>
    let r := topoRound g indeg queue
    if r.2.isEmpty then [] else r.2 :: topoLoop g fuel r.1 r.2

/-- src/task_scheduler.py `TaskScheduler.topological_sort`: Kahn's
algorithm by levels over a copy of `in_degree`. -/
def TaskScheduler.topological_sort (s : TaskScheduler) : List (List String) :=
  let level0 := (graphKeys s.graph).filter (fun k => s.in_degree k == 0)
  if level0.isEmpty then []
  else level0 ::
    topoLoop s.graph (totalEdges s.graph + s.graph.length + 1) s.in_degree level0

/-- Result of `TaskScheduler.execute`: the returned results dict, or a
`KeyError` escaping from `self.tasks[task_id]` on an id that was never
registered, or divergence (a thread that never terminates makes the
level barrier `join` block forever). -/
inductive ExecResult where
  | ok : TaskRegistry → ExecResult
  | keyError : String → ExecResult
  | diverge : ExecResult

def ExecResult.get : ExecResult → String → Option TaskResult
  | .ok reg, id => reg id
  | .keyError _, _ => none
  | .diverge, _ => none

def ExecResult.isOk : ExecResult → Bool
  | .ok _ => true
  | .keyError _ => false
  | .diverge => false

/-- Execution of the tasks of one level.  The threads of a level are
sequentialised in list order; a task id missing from `self.tasks` raises
`KeyError` out of `execute` (the thread-constructor argument
`self.tasks[task_id]` is evaluated on the controlling thread). -/
def runLevel (tasks : String → Option PyTask) :
    List String → TaskRegistry → ExecResult
  | [], reg => .ok reg
  | id :: rest, reg =>
    match tasks id with
    | none => .keyError id
    | some t =>
      match t.call reg with
      | none => .diverge
      | some out => runLevel tasks rest out.registry

def runLevels (tasks : String → Option PyTask) :
    List (List String) → TaskRegistry → ExecResult
  | [], reg => .ok reg
  | lvl :: rest, reg =>
    match runLevel tasks lvl reg with
    | .ok reg2 => runLevels tasks rest reg2
    | .keyError id => .keyError id
    | .diverge => .diverge

/-- src/task_scheduler.py `TaskScheduler.execute`: compute the levels,
run them in order with a barrier between consecutive levels, return the
registry's contents. -/
def TaskScheduler.execute (s : TaskScheduler) : ExecResult :=
  runLevels s.tasks s.topological_sort s.registry

/-! ## Concrete scenarios used by the claims -/

/-- A body that always succeeds immediately. -/
def bodyOk : (String → Option Val) → Nat → BodyOutcome := fun _ _ => .ok (Val.nat 1)

/-- A body that raises a distinct exception on every attempt. -/
def bodyFailAll : (String → Option Val) → Nat → BodyOutcome :=
  fun _ n => .fail (.bodyFail n)

/-- A body that never completes within the timeout. -/
def bodyHang : (String → Option Val) → Nat → BodyOutcome := fun _ _ => .hang

def taskA : PyTask := PyTask.init "A" [] [] none none bodyOk

def taskB : PyTask := PyTask.init "B" ["A"] [] none none bodyOk

def taskC : PyTask := PyTask.init "C" [] ["A"] none none bodyOk

/-- Scheduler holding A (no dependencies), B (requires A), C (optionally
depends on A). -/
def schedABC : TaskScheduler :=
  (((TaskScheduler.mk0 none none).add_task taskA).add_task taskB).add_task taskC

def taskT : PyTask := PyTask.init "t" ["p"] [] none none bodyOk

/-- Scheduler holding a single task "t" that requires the never
registered id "p". -/
def schedPhantom : TaskScheduler := (TaskScheduler.mk0 none none).add_task taskT

def taskCycA : PyTask := PyTask.init "a" ["b"] [] none none bodyOk

def taskCycB : PyTask := PyTask.init "b" ["a"] [] none none bodyOk

def taskCycC : PyTask := PyTask.init "c" [] [] none none bodyOk

/-- Scheduler holding the dependency cycle a ↔ b plus a standalone c. -/
def cycSched : TaskScheduler :=
  (((TaskScheduler.mk0 none none).add_task taskCycA).add_task taskCycB).add_task taskCycC

/-- A task with a required dependency that never has a registry entry. -/
def depTask : PyTask := PyTask.init "d" ["missing"] [] none none bodyOk

/-- A task whose body raises on every attempt (no timeout configured). -/
def failTask : PyTask := PyTask.init "f" [] [] none none bodyFailAll

/-- A task with a timeout whose body never completes in time. -/
def hangTask : PyTask := PyTask.init "h" [] [] (some 1) none bodyHang

/-- A task with a timeout whose body times out on attempt 1 and
succeeds on attempt 2. -/
def hangOnce : PyTask := PyTask.init "h1" [] [] (some 1) none
  (fun _ n => if n = 1 then .hang else .ok (Val.nat 0))

/-- Scheduler constructed with a non-default retry policy. -/
def sched5 : TaskScheduler := TaskScheduler.mk0 none (some { max_retries := 5 })

/-- Scheduler constructed with a default timeout. -/
def schedTm : TaskScheduler := TaskScheduler.mk0 (some 9) none

/-- A task built without a retry policy and without a timeout. -/
def t0 : PyTask := PyTask.init "t" [] [] none none bodyOk

def dupT1 : PyTask := PyTask.init "a" ["d"] [] none none bodyOk

/-- A second task with the same id "a" as `dupT1` but a different
timeout, to make the overwrite observable. -/
def dupT2 : PyTask := PyTask.init "a" ["d"] [] (some 7) none bodyOk

def dupSched1 : TaskScheduler := (TaskScheduler.mk0 none none).add_task dupT1

def dupSched2 : TaskScheduler := dupSched1.add_task dupT2

/-- "The output field is set" in the sense of §3 of the spec: the stored
output is not Python `None`. -/
def TaskResult.outputSet (r : TaskResult) : Prop := r.output ≠ Val.pynone

/-- "The error field is set": the stored error is not `None`. -/
def TaskResult.errorSet (r : TaskResult) : Prop := r.error.isSome = true

/-- Exactly one of the output and error fields is set. -/
def exactlyOneSet (r : TaskResult) : Prop :=
  (r.outputSet ∧ ¬ r.errorSet) ∨ (¬ r.outputSet ∧ r.errorSet)

/-! ## Helper lemmas about `add_task` -/

theorem updInt_self (f : String → Int) (k : String) (v : Int) :
    updInt f k v k = v := by
  simp [updInt]

theorem addDeps_in_degree (tid : String) :
    ∀ (deps : List String) (g : Graph) (indeg : String → Int),
      (addDeps tid deps g indeg).2 tid = indeg tid + deps.length := by
  intro deps
  induction deps with
  | nil => intro g indeg; simp [addDeps]
  | cons d rest ih =>
    intro g indeg
    simp only [addDeps, ih, updInt_self, List.length_cons]
    push_cast
    ring

theorem graphAppend_totalEdges (k v : String) :
    ∀ (g : Graph), totalEdges (graphAppend g k v) = totalEdges g + 1 := by
  intro g
  induction g with
  | nil => simp [graphAppend, totalEdges]
  | cons p rest ih =>
    obtain ⟨k', vs⟩ := p
    by_cases h : k' = k
    · simp [graphAppend, h, totalEdges]
      omega
    · simp [graphAppend, h, totalEdges] at ih ⊢
      omega

theorem addDeps_totalEdges (tid : String) :
    ∀ (deps : List String) (g : Graph) (indeg : String → Int),
      totalEdges (addDeps tid deps g indeg).1 = totalEdges g + deps.length := by
  intro deps
  induction deps with
  | nil => intro g indeg; simp [addDeps]
  | cons d rest ih =>
    intro g indeg
    simp only [addDeps, ih, graphAppend_totalEdges, List.length_cons]
    omega

theorem applyDefaults_task_id (s : TaskScheduler) (t : PyTask) :
    (applyDefaults s t).task_id = t.task_id := by
  unfold applyDefaults
  dsimp only
  split_ifs <;> rfl

theorem applyDefaults_dependencies (s : TaskScheduler) (t : PyTask) :
    (applyDefaults s t).dependencies = t.dependencies := by
  unfold applyDefaults
  dsimp only
  split_ifs <;> rfl

theorem add_task_in_degree (s : TaskScheduler) (t : PyTask) :
    (s.add_task t).in_degree t.task_id
      = s.in_degree t.task_id + t.dependencies.length := by
  unfold TaskScheduler.add_task
  dsimp only
  rw [show (applyDefaults s t).task_id = t.task_id from applyDefaults_task_id s t]
  rw [addDeps_in_degree]
  simp [PyTask.all_dependency_ids, applyDefaults_dependencies]

theorem add_task_totalEdges (s : TaskScheduler) (t : PyTask) :
    totalEdges (s.add_task t).graph = totalEdges s.graph + t.dependencies.length := by
  unfold TaskScheduler.add_task
  dsimp only
  split_ifs with h
  · rw [addDeps_totalEdges]
    simp [PyTask.all_dependency_ids, applyDefaults_dependencies]
  · simp only [totalEdges, List.map_append, List.sum_append]
    rw [show ((addDeps (applyDefaults s t).task_id (applyDefaults s t).all_dependency_ids
        s.graph s.in_degree).1.map (fun p => p.2.length)).sum
      = totalEdges (addDeps (applyDefaults s t).task_id
          (applyDefaults s t).all_dependency_ids s.graph s.in_degree).1 from rfl]
    rw [addDeps_totalEdges]
    simp [PyTask.all_dependency_ids, applyDefaults_dependencies, totalEdges]

theorem add_task_tasks_self (s : TaskScheduler) (t : PyTask) :
    (s.add_task t).tasks t.task_id = some (applyDefaults s t) := by
  unfold TaskScheduler.add_task
  dsimp only
  rw [if_pos (applyDefaults_task_id s t).symm]

/-! ## Claim theorems -/

/-- C3: `add_task` adds one graph edge and one in-degree increment per
declared dependency, required and optional alike (a task built by
`Task.__init__` from `required_dependencies` and `optional_dependencies`
declares all of them), so both kinds constrain scheduling order; and for
tasks A (no dependencies), B (requires A), C (optionally depends on A),
`topological_sort` produces exactly the two levels `[[A], [B, C]]`. -/
theorem add_task_counts_all_dependencies :
    (∀ (task_id : String) (req opt : List String) (tm : Option ℚ)
        (rp : Option RetryPolicy) (body : (String → Option Val) → Nat → BodyOutcome),
      (PyTask.init task_id req opt tm rp body).dependencies.length
        = req.length + opt.length)
    ∧ (∀ (s : TaskScheduler) (t : PyTask),
      (s.add_task t).in_degree t.task_id
          = s.in_degree t.task_id + t.dependencies.length
        ∧ totalEdges (s.add_task t).graph
          = totalEdges s.graph + t.dependencies.length)
    ∧ schedABC.topological_sort = [["A"], ["B", "C"]] := by
  refine ⟨?_, ?_, by decide⟩
  · intro task_id req opt tm rp body
    simp [PyTask.init]
  · intro s t
    exact ⟨add_task_in_degree s t, add_task_totalEdges s t⟩

/-- C8 counterexample: registering a second task with the already
registered id "a" is not rejected: `add_task` processes it normally, so
the duplicate's dependency edge is appended again (`graph["d"]` becomes
`["a", "a"]`), the duplicate's in-degree increment accumulates
(`in_degree["a"]` goes from 1 to 2), and the task table entry is
silently overwritten with the new task (visible through its timeout). -/
theorem duplicate_id_silently_accepted :
    dupSched1.in_degree "a" = 1
    ∧ dupSched2.in_degree "a" = 2
    ∧ (dupSched2.tasks "a").map (fun u => u.timeout) = some (some 7)
    ∧ List.lookup "d" dupSched2.graph = some ["a", "a"] := by
  refine ⟨by decide, by decide, by decide, by decide⟩

/-- C8 amended: `add_task` does not reject a duplicate id; it always
registers the task (after default application), overwriting any existing
entry under the same id in the task table, and unconditionally appends
one edge and one in-degree increment per declared dependency, so a
duplicate registration accumulates on top of the first. -/
theorem add_task_overwrites_duplicates :
    ∀ (s : TaskScheduler) (t : PyTask),
      (s.add_task t).tasks t.task_id = some (applyDefaults s t)
      ∧ (s.add_task t).in_degree t.task_id
          = s.in_degree t.task_id + t.dependencies.length := by
  intro s t
  exact ⟨add_task_tasks_self s t, add_task_in_degree s t⟩

/-- C9: the scheduler-default-retry-policy branch of `add_task` is dead
code.  `Task.__init__` replaces an unspecified retry policy with the
class default `RetryPolicy()` before `add_task` ever sees the task, so
`task.retry_policy is None` is never true and a task that did not
specify its own policy keeps the class default (`max_retries = 3`)
instead of receiving the scheduler's default (`max_retries = 5` here).
The analogous timeout default does work, because `Task.__init__` leaves
an unspecified timeout as `None` (last conjunct). -/
theorem default_retry_policy_never_applied :
    sched5.default_retry_policy.max_retries = 5
    ∧ ((sched5.add_task t0).tasks "t").map (fun u => u.retry_policy)
        = some (some ({} : RetryPolicy))
    ∧ ({} : RetryPolicy).max_retries = 3
    ∧ ({} : RetryPolicy) ≠ sched5.default_retry_policy
    ∧ ((schedTm.add_task t0).tasks "t").map (fun u => u.timeout)
        = some (some 9) := by
  refine ⟨by decide, by decide, by decide, by decide, by decide⟩

/-- C7 counterexample: `set_result` stores the output it is given with
`error = None`; a task body may legitimately return Python `None`
(`output` is typed `Any`), and then the completed result written by
`set_result` has neither its output nor its error field set. -/
theorem set_result_none_output_neither_set :
    (TaskRegistry.set_result emptyRegistry "t" Val.pynone 1 1) "t"
      = some { task_id := "t", output := Val.pynone, completed := true }
    ∧ ¬ exactlyOneSet
        { task_id := "t", output := Val.pynone, completed := true } := by
  constructor
  · rfl
  · intro h
    rcases h with ⟨h1, _⟩ | ⟨_, h2⟩
    · exact h1 rfl
    · simp [TaskResult.errorSet] at h2

/-- C7 amended: every completed result written by `set_error` with a
non-`None` error, or by `set_timeout`, has exactly one of output/error
set; a result written by `set_result` has exactly one set provided the
stored output value is not itself `None` (otherwise neither is set). -/
theorem registry_writes_exactly_one_set
    (reg : TaskRegistry) (id : String) (v : Val) (e : Err) (a n : Nat) :
    (v ≠ Val.pynone →
      ∃ r, (reg.set_result id v a n) id = some r
        ∧ r.completed = true ∧ exactlyOneSet r)
    ∧ (∃ r, (reg.set_error id (some e) a n) id = some r
        ∧ r.completed = true ∧ exactlyOneSet r)
    ∧ (∃ r, (reg.set_timeout id a n) id = some r
        ∧ r.completed = true ∧ exactlyOneSet r) := by
  refine ⟨?_, ?_, ?_⟩
  · intro hv
    refine ⟨{ task_id := id, output := v, completed := true,
              attempt := a, total_attempts := n },
      by simp [TaskRegistry.set_result, TaskRegistry.store], rfl, ?_⟩
    exact Or.inl ⟨hv, by simp [TaskResult.errorSet]⟩
  · refine ⟨{ task_id := id, output := Val.pynone, error := some e,
              completed := true, attempt := a, total_attempts := n },
      by simp [TaskRegistry.set_error, TaskRegistry.store], rfl, ?_⟩
    exact Or.inr ⟨by simp [TaskResult.outputSet], by simp [TaskResult.errorSet]⟩
  · refine ⟨{ task_id := id, output := Val.pynone, error := some Err.timeout,
              completed := true, timed_out := true,
              attempt := a, total_attempts := n },
      by simp [TaskRegistry.set_timeout, TaskRegistry.store], rfl, ?_⟩
    exact Or.inr ⟨by simp [TaskResult.outputSet], by simp [TaskResult.errorSet]⟩

/-- Witness for the C7 amended theorem at a concrete write. -/
theorem registry_writes_exactly_one_set_witness :
    (Val.nat 4 ≠ Val.pynone)
    ∧ ∃ r, (TaskRegistry.set_result emptyRegistry "w" (Val.nat 4) 2 2) "w" = some r
        ∧ r.completed = true ∧ exactlyOneSet r :=
  ⟨by decide,
   (registry_writes_exactly_one_set emptyRegistry "w" (Val.nat 4) Err.timeout 2 2).1
     (by decide)⟩

/-- C6: with jitter disabled, `get_delay attempt` equals
`min (initial_delay * backoff_factor ^ (attempt - 1)) max_delay`, is
non-decreasing in the attempt number, and never exceeds `max_delay`
(saturation); with jitter enabled and the uniform draw `u ∈ [0.5, 1.5]`,
the delay lies in `[0.5 * base, 1.5 * base]` for the same base.  The
hypotheses are §3's data-model constraints on `RetryPolicy`. -/
theorem get_delay_spec (p : RetryPolicy) (attempt : Nat) (u : ℚ)
    (hatt : 1 ≤ attempt) (hinit : 0 ≤ p.initial_delay)
    (hback : 1 ≤ p.backoff_factor) (hmax : p.initial_delay ≤ p.max_delay) :
    (p.jitter = false →
      p.get_delay attempt u
          = min (p.initial_delay * p.backoff_factor ^ (attempt - 1)) p.max_delay
        ∧ p.get_delay attempt u ≤ p.get_delay (attempt + 1) u
        ∧ p.get_delay attempt u ≤ p.max_delay)
    ∧ (p.jitter = true → 1/2 ≤ u → u ≤ 3/2 →
      (1/2) * min (p.initial_delay * p.backoff_factor ^ (attempt - 1)) p.max_delay
          ≤ p.get_delay attempt u
        ∧ p.get_delay attempt u
          ≤ (3/2) * min (p.initial_delay * p.backoff_factor ^ (attempt - 1)) p.max_delay) := by
  have hb0 : (0 : ℚ) ≤ p.backoff_factor := le_trans zero_le_one hback
  have hbase0 : 0 ≤ min (p.initial_delay * p.backoff_factor ^ (attempt - 1)) p.max_delay :=
    le_min (mul_nonneg hinit (pow_nonneg hb0 _)) (le_trans hinit hmax)
  have hmono : min (p.initial_delay * p.backoff_factor ^ (attempt - 1)) p.max_delay
      ≤ min (p.initial_delay * p.backoff_factor ^ (attempt + 1 - 1)) p.max_delay := by
    refine min_le_min ?_ le_rfl
    exact mul_le_mul_of_nonneg_left (pow_le_pow_right₀ hback (by omega)) hinit
  constructor
  · intro hj
    refine ⟨by simp [RetryPolicy.get_delay, hj], ?_, ?_⟩
    · simp only [RetryPolicy.get_delay, hj, if_false, Bool.false_eq_true]
      exact hmono
    · simp only [RetryPolicy.get_delay, hj, if_false, Bool.false_eq_true]
      exact min_le_right _ _
  · intro hj hu1 hu2
    simp only [RetryPolicy.get_delay, hj, if_true]
    constructor
    · calc (1/2) * min (p.initial_delay * p.backoff_factor ^ (attempt - 1)) p.max_delay
          = min (p.initial_delay * p.backoff_factor ^ (attempt - 1)) p.max_delay * (1/2) := by
            ring
        _ ≤ min (p.initial_delay * p.backoff_factor ^ (attempt - 1)) p.max_delay * u :=
            mul_le_mul_of_nonneg_left hu1 hbase0
    · calc min (p.initial_delay * p.backoff_factor ^ (attempt - 1)) p.max_delay * u
          ≤ min (p.initial_delay * p.backoff_factor ^ (attempt - 1)) p.max_delay * (3/2) :=
            mul_le_mul_of_nonneg_left hu2 hbase0
        _ = (3/2) * min (p.initial_delay * p.backoff_factor ^ (attempt - 1)) p.max_delay := by
            ring

/-- Witness for the C6 theorem at the class-default policy, attempt 2,
uniform draw 1. -/
theorem get_delay_spec_witness :
    ((1 : Nat) ≤ 2 ∧ (0 : ℚ) ≤ ({} : RetryPolicy).initial_delay
      ∧ (1 : ℚ) ≤ ({} : RetryPolicy).backoff_factor
      ∧ ({} : RetryPolicy).initial_delay ≤ ({} : RetryPolicy).max_delay)
    ∧ (({} : RetryPolicy).jitter = true → 1/2 ≤ (1 : ℚ) → (1 : ℚ) ≤ 3/2 →
      (1/2) * min (({} : RetryPolicy).initial_delay
          * ({} : RetryPolicy).backoff_factor ^ (2 - 1)) ({} : RetryPolicy).max_delay
          ≤ ({} : RetryPolicy).get_delay 2 1
        ∧ ({} : RetryPolicy).get_delay 2 1
          ≤ (3/2) * min (({} : RetryPolicy).initial_delay
            * ({} : RetryPolicy).backoff_factor ^ (2 - 1)) ({} : RetryPolicy).max_delay) :=
  ⟨⟨by norm_num, by norm_num [RetryPolicy.initial_delay], by norm_num, by norm_num⟩,
   (get_delay_spec {} 2 1 (by norm_num) (by norm_num) (by norm_num) (by norm_num)).2⟩

/-! ## Lemmas about input resolution and the retry loop -/

/-- If some required dependency has no registry entry or an errored one,
the resolution loop of `__call__` raises. -/
theorem resolveGo_error (reg : TaskRegistry) :
    ∀ (deps : List Dependency) (inputs : String → Option Val),
      (∃ d ∈ deps, d.required = true ∧
        ∀ r, reg.get_result d.task_id = some r → r.error.isSome = true) →
      ∃ e, resolveGo reg deps inputs = .error e := by
  intro deps
  induction deps with
  | nil => intro inputs h; simp at h
  | cons d0 rest ih =>
    intro inputs h
    obtain ⟨d, hd, hreq, huns⟩ := h
    cases hr : reg.get_result d0.task_id with
    | none =>
      by_cases hreq0 : d0.required
      · exact ⟨Err.depMissing d0.task_id, by simp [resolveGo, hr, hreq0]⟩
      · have hdr : d ∈ rest := by
          rcases List.mem_cons.mp hd with h0 | h0
          · subst h0; rw [hreq] at hreq0; exact absurd rfl hreq0
          · exact h0
        obtain ⟨e, he⟩ := ih inputs ⟨d, hdr, hreq, huns⟩
        exact ⟨e, by simp [resolveGo, hr, hreq0, he]⟩
    | some r =>
      by_cases hreq0 : d0.required
      · by_cases herr : r.error.isSome = true
        · exact ⟨Err.depFailed d0.task_id, by simp [resolveGo, hr, hreq0, herr]⟩
        · have hdr : d ∈ rest := by
            rcases List.mem_cons.mp hd with h0 | h0
            · subst h0; exact absurd (huns r hr) (by simpa using herr)
            · exact h0
          obtain ⟨e, he⟩ := ih
            (fun k => if k = d0.task_id then some r.output else inputs k)
            ⟨d, hdr, hreq, huns⟩
          refine ⟨e, ?_⟩
          simp only [resolveGo, hr, hreq0, if_true, herr]
          simpa [herr] using he
      · have hdr : d ∈ rest := by
          rcases List.mem_cons.mp hd with h0 | h0
          · subst h0; rw [hreq] at hreq0; exact absurd rfl hreq0
          · exact h0
        by_cases herr : r.error.isSome = true
        · obtain ⟨e, he⟩ := ih inputs ⟨d, hdr, hreq, huns⟩
          exact ⟨e, by simp [resolveGo, hr, hreq0, herr, he]⟩
        · obtain ⟨e, he⟩ := ih
            (fun k => if k = d0.task_id then some r.output else inputs k)
            ⟨d, hdr, hreq, huns⟩
          refine ⟨e, ?_⟩
          simp only [resolveGo, hr, hreq0]
          simpa [herr] using he

/-- C2: a task with at least one required dependency whose registry
entry is absent or holds an error fails during input resolution: the
stored result has an error set, the retry loop is never entered (zero
body invocations), whatever the task's retry policy says. -/
theorem unsatisfied_required_dep_zero_attempts
    (t : PyTask) (reg : TaskRegistry)
    (h : ∃ d ∈ t.dependencies, d.required = true ∧
      ∀ r, reg.get_result d.task_id = some r → r.error.isSome = true) :
    ∃ out e r, PyTask.call t reg = some out
      ∧ out.invocations = 0
      ∧ out.raised = some e
      ∧ out.registry t.task_id = some r
      ∧ r.error = some e
      ∧ r.completed = true := by
  obtain ⟨e, he⟩ := resolveGo_error reg t.dependencies (fun _ => none) h
  refine ⟨{ registry := reg.set_error t.task_id (some e) 1 1, cancel := false,
            invocations := 0, flags := [], raised := some e }, e,
          { task_id := t.task_id, output := Val.pynone, error := some e,
            completed := true, attempt := 1, total_attempts := 1 },
          ?_, rfl, rfl, ?_, rfl, rfl⟩
  · unfold PyTask.call resolveInputs
    rw [he]
  · simp [TaskRegistry.set_error, TaskRegistry.store]

/-- Witness for C2: a task requiring the id "missing", which has no
registry entry, fails with zero invocations. -/
theorem unsatisfied_required_dep_zero_attempts_witness :
    ∃ out e r, PyTask.call depTask emptyRegistry = some out
      ∧ out.invocations = 0
      ∧ out.raised = some e
      ∧ out.registry depTask.task_id = some r
      ∧ r.error = some e
      ∧ r.completed = true :=
  unsatisfied_required_dep_zero_attempts depTask emptyRegistry
    ⟨{ task_id := "missing", required := true },
     by simp [depTask, PyTask.init],
     rfl,
     fun r hr => by simp [emptyRegistry, TaskRegistry.get_result] at hr⟩

/-- One-step unfolding of the retry loop: the loop body with iterations
remaining is `retryGo (remaining + 1)`; `retryGo 0` is the
finalisation after the `while` guard fails. -/
theorem retryGo_zero (t : PyTask) (inputs : String → Option Val)
    (attempt : Nat) (reg : TaskRegistry) (lastError : Option Err)
    (cancel : Bool) (invoc : Nat) (flags : List Bool) :
    retryGo t inputs 0 attempt reg lastError cancel invoc flags
      = some { registry := finalizeRetry t reg lastError attempt,
               cancel := cancel, invocations := invoc, flags := flags,
               raised := none } := rfl

/-- A successful attempt stores the result and leaves the loop. -/
theorem retryGo_step_ok (t : PyTask) (inputs : String → Option Val)
    (remaining attempt : Nat) (reg : TaskRegistry) (lastError : Option Err)
    (cancel : Bool) (invoc : Nat) (flags : List Bool) (v : Val)
    (h : t.execute inputs attempt = .ok v) :
    retryGo t inputs (remaining + 1) attempt reg lastError cancel invoc flags
      = some { registry := reg.set_result t.task_id v attempt attempt,
               cancel := cancel, invocations := invoc + 1,
               flags := flags ++ [cancel], raised := none } := by
  cases ht : t.timeout <;> simp only [retryGo, ht, h]

/-- A raising attempt records the error and retries. -/
theorem retryGo_step_fail (t : PyTask) (inputs : String → Option Val)
    (remaining attempt : Nat) (reg : TaskRegistry) (lastError : Option Err)
    (cancel : Bool) (invoc : Nat) (flags : List Bool) (e : Err)
    (h : t.execute inputs attempt = .fail e) :
    retryGo t inputs (remaining + 1) attempt reg lastError cancel invoc flags
      = retryGo t inputs remaining (attempt + 1) reg (some e) cancel
          (invoc + 1) (flags ++ [cancel]) := by
  cases ht : t.timeout <;> simp only [retryGo, ht, h]

/-- With a timeout configured, an attempt that does not complete in time
sets the cancel event, records a `TimeoutError` and retries. -/
theorem retryGo_step_hang (t : PyTask) (inputs : String → Option Val)
    (remaining attempt : Nat) (reg : TaskRegistry) (lastError : Option Err)
    (cancel : Bool) (invoc : Nat) (flags : List Bool) (τ : ℚ)
    (ht : t.timeout = some τ) (h : t.execute inputs attempt = .hang) :
    retryGo t inputs (remaining + 1) attempt reg lastError cancel invoc flags
      = retryGo t inputs remaining (attempt + 1) reg (some Err.timeout) true
          (invoc + 1) (flags ++ [cancel]) := by
  simp only [retryGo, ht, h]

/-- With no timeout configured, an attempt whose body never returns
makes the whole call diverge. -/
theorem retryGo_step_hang_none (t : PyTask) (inputs : String → Option Val)
    (remaining attempt : Nat) (reg : TaskRegistry) (lastError : Option Err)
    (cancel : Bool) (invoc : Nat) (flags : List Bool)
    (ht : t.timeout = none) (h : t.execute inputs attempt = .hang) :
    retryGo t inputs (remaining + 1) attempt reg lastError cancel invoc flags
      = none := by
  simp only [retryGo, ht, h]

/-- If every attempt from `attempt` to `attempt + r` raises a
non-timeout error, the retry loop with `r + 1` permitted iterations
makes exactly `r + 1` invocations, never touches the cancel flag, and
finalises with `set_error` carrying the last attempt's error and
`attempt + r` for both counters. -/
theorem retryGo_allfail (t : PyTask) (inputs : String → Option Val) :
    ∀ (r attempt : Nat) (reg : TaskRegistry) (lastError : Option Err)
      (cancel : Bool) (invoc : Nat) (flags : List Bool),
      (∀ n, attempt ≤ n → n ≤ attempt + r →
        ∃ e, t.execute inputs n = .fail e ∧ e ≠ Err.timeout) →
      ∃ e, t.execute inputs (attempt + r) = .fail e ∧
        retryGo t inputs (r + 1) attempt reg lastError cancel invoc flags
          = some { registry := reg.set_error t.task_id (some e)
                     (attempt + r) (attempt + r),
                   cancel := cancel, invocations := invoc + (r + 1),
                   flags := flags ++ List.replicate (r + 1) cancel,
                   raised := none } := by
  intro r
  induction r with
  | zero =>
    intro attempt reg lastError cancel invoc flags hall
    obtain ⟨e0, he0, hne0⟩ := hall attempt le_rfl (by omega)
    refine ⟨e0, by simpa using he0, ?_⟩
    rw [retryGo_step_fail t inputs 0 attempt reg lastError cancel invoc flags e0 he0,
        retryGo_zero]
    have hfin : finalizeRetry t reg (some e0) (attempt + 1)
        = reg.set_error t.task_id (some e0) attempt attempt := by
      unfold finalizeRetry
      rw [if_neg (by simpa using hne0)]
      simp
    rw [hfin]
    simp
  | succ r' ihr =>
    intro attempt reg lastError cancel invoc flags hall
    obtain ⟨e0, he0, hne0⟩ := hall attempt le_rfl (by omega)
    obtain ⟨e, he, hgo⟩ := ihr (attempt + 1) reg (some e0) cancel (invoc + 1)
      (flags ++ [cancel]) (fun n h1 h2 => hall n (by omega) (by omega))
    have hidx : attempt + 1 + r' = attempt + (r' + 1) := by omega
    rw [hidx] at he hgo
    have hinv : invoc + 1 + (r' + 1) = invoc + (r' + 1 + 1) := by omega
    rw [hinv] at hgo
    have hflags : (flags ++ [cancel]) ++ List.replicate (r' + 1) cancel
        = flags ++ List.replicate (r' + 1 + 1) cancel := by
      rw [List.append_assoc, List.singleton_append, ← List.replicate_succ]
    rw [hflags] at hgo
    refine ⟨e, he, ?_⟩
    rw [retryGo_step_fail t inputs (r' + 1) attempt reg lastError cancel invoc
        flags e0 he0]
    exact hgo

/-- C4: a task whose inputs resolve and whose body raises a non-timeout
error on every attempt is invoked exactly `max_retries` times; its final
result carries `total_attempts = max_retries`, the last raised error, no
output, and `timed_out = false`. -/
theorem failing_body_attempted_max_retries_times
    (t : PyTask) (reg : TaskRegistry) (inputs : String → Option Val)
    (hres : resolveInputs t reg = .ok inputs)
    (hmax : 1 ≤ t.policy.max_retries)
    (hfail : ∀ n, 1 ≤ n → n ≤ t.policy.max_retries →
      ∃ e, t.execute inputs n = .fail e ∧ e ≠ Err.timeout) :
    ∃ out r e, PyTask.call t reg = some out
      ∧ out.invocations = t.policy.max_retries
      ∧ out.registry t.task_id = some r
      ∧ t.execute inputs t.policy.max_retries = .fail e
      ∧ r.error = some e
      ∧ r.total_attempts = t.policy.max_retries
      ∧ r.output = Val.pynone
      ∧ r.timed_out = false := by
  obtain ⟨e, he, hgo⟩ := retryGo_allfail t inputs (t.policy.max_retries - 1) 1 reg
    none false 0 [] (fun n h1 h2 => hfail n h1 (by omega))
  have hidx : 1 + (t.policy.max_retries - 1) = t.policy.max_retries := by omega
  rw [hidx] at he hgo
  have hrem : t.policy.max_retries - 1 + 1 = t.policy.max_retries := by omega
  rw [hrem] at hgo
  simp only [Nat.zero_add, List.nil_append] at hgo
  refine ⟨{ registry := reg.set_error t.task_id (some e)
              t.policy.max_retries t.policy.max_retries,
            cancel := false, invocations := t.policy.max_retries,
            flags := List.replicate t.policy.max_retries false, raised := none },
          { task_id := t.task_id, output := Val.pynone, error := some e,
            completed := true,
            attempt := t.policy.max_retries,
            total_attempts := t.policy.max_retries }, e,
          ?_, rfl, ?_, he, rfl, rfl, rfl, rfl⟩
  · unfold PyTask.call
    rw [hres]
    exact hgo
  · simp [TaskRegistry.set_error, TaskRegistry.store]

/-- Witness for C4: `failTask` (body raises `bodyFail n` on attempt `n`,
no timeout, class-default three retries). -/
theorem failing_body_attempted_max_retries_times_witness :
    ∃ out r e, PyTask.call failTask emptyRegistry = some out
      ∧ out.invocations = failTask.policy.max_retries
      ∧ out.registry failTask.task_id = some r
      ∧ failTask.execute (fun _ => none) failTask.policy.max_retries = .fail e
      ∧ r.error = some e
      ∧ r.total_attempts = failTask.policy.max_retries
      ∧ r.output = Val.pynone
      ∧ r.timed_out = false :=
  failing_body_attempted_max_retries_times failTask emptyRegistry (fun _ => none)
    rfl (by decide)
    (fun n h1 h2 => ⟨Err.bodyFail n, rfl, by simp⟩)

/-- With a timeout configured and no attempt in `attempt .. attempt + r`
succeeding, the retry loop makes `r + 1` invocations and finalises with
both counters at `attempt + r`; the stored result is flagged
`timed_out` exactly when the last attempt's outcome was a timeout (a
hang, or the body raising `TimeoutError` itself), and otherwise carries
the last attempt's error. -/
theorem retryGo_nosuccess (t : PyTask) (inputs : String → Option Val)
    (τ : ℚ) (ht : t.timeout = some τ) :
    ∀ (r attempt : Nat) (reg : TaskRegistry) (lastError : Option Err)
      (cancel : Bool) (invoc : Nat) (flags : List Bool),
      (∀ n, attempt ≤ n → n ≤ attempt + r → ∀ v, t.execute inputs n ≠ .ok v) →
      ∃ out rr,
        retryGo t inputs (r + 1) attempt reg lastError cancel invoc flags
          = some out
        ∧ out.registry t.task_id = some rr
        ∧ out.invocations = invoc + (r + 1)
        ∧ rr.completed = true
        ∧ rr.attempt = attempt + r
        ∧ rr.total_attempts = attempt + r
        ∧ (rr.timed_out = true ↔
            (t.execute inputs (attempt + r) = .hang
              ∨ t.execute inputs (attempt + r) = .fail Err.timeout))
        ∧ (rr.timed_out = true → rr.error = some Err.timeout)
        ∧ (rr.timed_out = false →
            ∃ e, t.execute inputs (attempt + r) = .fail e ∧ rr.error = some e) := by
  intro r
  induction r with
  | zero =>
    intro attempt reg lastError cancel invoc flags hns
    cases hx : t.execute inputs attempt with
    | ok v => exact absurd hx (hns attempt le_rfl (by omega) v)
    | hang =>
      refine ⟨{ registry := reg.set_timeout t.task_id attempt attempt,
                cancel := true, invocations := invoc + 1,
                flags := flags ++ [cancel], raised := none },
              { task_id := t.task_id, output := Val.pynone,
                error := some Err.timeout, completed := true,
                timed_out := true, attempt := attempt,
                total_attempts := attempt },
              ?_, ?_, by simp, rfl, rfl, rfl, ?_, fun _ => rfl, ?_⟩
      · rw [retryGo_step_hang t inputs 0 attempt reg lastError cancel invoc
            flags τ ht hx, retryGo_zero]
        unfold finalizeRetry
        rw [if_pos rfl]
        simp
      · simp [TaskRegistry.set_timeout, TaskRegistry.store]
      · exact ⟨fun _ => Or.inl (by simpa using hx), fun _ => rfl⟩
      · intro h; exact absurd h (by simp)
    | fail e =>
      by_cases he : e = Err.timeout
      · subst he
        refine ⟨{ registry := reg.set_timeout t.task_id attempt attempt,
                  cancel := cancel, invocations := invoc + 1,
                  flags := flags ++ [cancel], raised := none },
                { task_id := t.task_id, output := Val.pynone,
                  error := some Err.timeout, completed := true,
                  timed_out := true, attempt := attempt,
                  total_attempts := attempt },
                ?_, ?_, by simp, rfl, rfl, rfl, ?_, fun _ => rfl, ?_⟩
        · rw [retryGo_step_fail t inputs 0 attempt reg lastError cancel invoc
              flags Err.timeout hx, retryGo_zero]
          unfold finalizeRetry
          rw [if_pos rfl]
          simp
        · simp [TaskRegistry.set_timeout, TaskRegistry.store]
        · exact ⟨fun _ => Or.inr (by simpa using hx), fun _ => rfl⟩
        · intro h; exact absurd h (by simp)
      · refine ⟨{ registry := reg.set_error t.task_id (some e) attempt attempt,
                  cancel := cancel, invocations := invoc + 1,
                  flags := flags ++ [cancel], raised := none },
                { task_id := t.task_id, output := Val.pynone,
                  error := some e, completed := true,
                  attempt := attempt, total_attempts := attempt },
                ?_, ?_, by simp, rfl, rfl, rfl, ?_, ?_, ?_⟩
        · rw [retryGo_step_fail t inputs 0 attempt reg lastError cancel invoc
              flags e hx, retryGo_zero]
          unfold finalizeRetry
          rw [if_neg (by simpa using he)]
          simp
        · simp [TaskRegistry.set_error, TaskRegistry.store]
        · constructor
          · intro h; exact absurd h (by simp)
          · intro h
            rcases h with h | h
            · rw [Nat.add_zero] at h; rw [h] at hx; exact absurd hx.symm (by simp)
            · rw [Nat.add_zero] at h
              rw [h] at hx
              injection hx with hx2
              exact absurd hx2.symm he
        · intro h; exact absurd h (by simp)
        · intro _; exact ⟨e, by simpa using hx, rfl⟩
  | succ r' ihr =>
    intro attempt reg lastError cancel invoc flags hns
    cases hx : t.execute inputs attempt with
    | ok v => exact absurd hx (hns attempt le_rfl (by omega) v)
    | hang =>
      obtain ⟨out, rr, hgo, hlook, hinvoc, hcomp, hatt, htot, hiff, hterr, hfe⟩ :=
        ihr (attempt + 1) reg (some Err.timeout) true (invoc + 1)
          (flags ++ [cancel]) (fun n h1 h2 v => hns n (by omega) (by omega) v)
      have hidx : attempt + 1 + r' = attempt + (r' + 1) := by omega
      rw [hidx] at hatt htot hiff hfe
      refine ⟨out, rr, ?_, hlook, by omega, hcomp, hatt, htot, hiff, hterr, hfe⟩
      rw [retryGo_step_hang t inputs (r' + 1) attempt reg lastError cancel invoc
          flags τ ht hx]
      exact hgo
    | fail e =>
      obtain ⟨out, rr, hgo, hlook, hinvoc, hcomp, hatt, htot, hiff, hterr, hfe⟩ :=
        ihr (attempt + 1) reg (some e) cancel (invoc + 1)
          (flags ++ [cancel]) (fun n h1 h2 v => hns n (by omega) (by omega) v)
      have hidx : attempt + 1 + r' = attempt + (r' + 1) := by omega
      rw [hidx] at hatt htot hiff hfe
      refine ⟨out, rr, ?_, hlook, by omega, hcomp, hatt, htot, hiff, hterr, hfe⟩
      rw [retryGo_step_fail t inputs (r' + 1) attempt reg lastError cancel invoc
          flags e hx]
      exact hgo

/-- C5: for a task with a timeout configured whose attempts never
succeed, the final result records `total_attempts = max_retries` after
exactly `max_retries` invocations, and finalisation marks `timed_out`
true exactly when the last recorded per-attempt error was a timeout
(in particular, if every attempt times out); otherwise it records a
generic failure with the last error. -/
theorem timeout_exhaustion_marks_timed_out
    (t : PyTask) (reg : TaskRegistry) (inputs : String → Option Val) (τ : ℚ)
    (ht : t.timeout = some τ)
    (hres : resolveInputs t reg = .ok inputs)
    (hmax : 1 ≤ t.policy.max_retries)
    (hns : ∀ n, 1 ≤ n → n ≤ t.policy.max_retries → ∀ v, t.execute inputs n ≠ .ok v) :
    ∃ out r, PyTask.call t reg = some out
      ∧ out.registry t.task_id = some r
      ∧ out.invocations = t.policy.max_retries
      ∧ r.total_attempts = t.policy.max_retries
      ∧ (r.timed_out = true ↔
          (t.execute inputs t.policy.max_retries = .hang
            ∨ t.execute inputs t.policy.max_retries = .fail Err.timeout))
      ∧ ((∀ n, 1 ≤ n → n ≤ t.policy.max_retries → t.execute inputs n = .hang) →
          r.timed_out = true)
      ∧ (r.timed_out = true → r.error = some Err.timeout)
      ∧ (r.timed_out = false →
          ∃ e, t.execute inputs t.policy.max_retries = .fail e ∧ r.error = some e) := by
  obtain ⟨out, rr, hgo, hlook, hinvoc, hcomp, hatt, htot, hiff, hterr, hfe⟩ :=
    retryGo_nosuccess t inputs τ ht (t.policy.max_retries - 1) 1 reg none false 0 []
      (fun n h1 h2 v => hns n h1 (by omega) v)
  have hidx : 1 + (t.policy.max_retries - 1) = t.policy.max_retries := by omega
  rw [hidx] at htot hiff hfe
  have hrem : t.policy.max_retries - 1 + 1 = t.policy.max_retries := by omega
  rw [hrem] at hgo hinvoc
  refine ⟨out, rr, ?_, hlook, by omega, htot, hiff, ?_, hterr, hfe⟩
  · unfold PyTask.call
    rw [hres]
    exact hgo
  · intro hallhang
    exact hiff.mpr (Or.inl (hallhang t.policy.max_retries hmax le_rfl))

/-- Witness for C5: `hangTask` (timeout 1, body always hangs,
class-default three retries). -/
theorem timeout_exhaustion_marks_timed_out_witness :
    ∃ out r, PyTask.call hangTask emptyRegistry = some out
      ∧ out.registry hangTask.task_id = some r
      ∧ out.invocations = hangTask.policy.max_retries
      ∧ r.total_attempts = hangTask.policy.max_retries
      ∧ (r.timed_out = true ↔
          (hangTask.execute (fun _ => none) hangTask.policy.max_retries = .hang
            ∨ hangTask.execute (fun _ => none) hangTask.policy.max_retries
                = .fail Err.timeout))
      ∧ ((∀ n, 1 ≤ n → n ≤ hangTask.policy.max_retries →
            hangTask.execute (fun _ => none) n = .hang) → r.timed_out = true)
      ∧ (r.timed_out = true → r.error = some Err.timeout)
      ∧ (r.timed_out = false →
          ∃ e, hangTask.execute (fun _ => none) hangTask.policy.max_retries
              = .fail e ∧ r.error = some e) :=
  timeout_exhaustion_marks_timed_out hangTask emptyRegistry (fun _ => none) 1
    rfl rfl (by decide) (fun n h1 h2 v h => by simp [hangTask, PyTask.init, bodyHang] at h)

/-- Trace invariant of the retry loop: the flags appended after entry
record the cancel event at the start of each attempt; the first appended
flag is the entry value, a set flag is never cleared between attempts,
and the flag observed right after a timed-out attempt is set. -/
theorem retryGo_flags (t : PyTask) (inputs : String → Option Val) :
    ∀ (remaining attempt : Nat) (reg : TaskRegistry) (lastError : Option Err)
      (cancel : Bool) (invoc : Nat) (flags : List Bool) (out : CallOut),
      retryGo t inputs remaining attempt reg lastError cancel invoc flags
        = some out →
      ∃ ext, out.flags = flags ++ ext
        ∧ (ext ≠ [] → ext.getD 0 false = cancel)
        ∧ (∀ k, k + 1 < ext.length →
            ext.getD k false = true → ext.getD (k + 1) false = true)
        ∧ (∀ k, k + 1 < ext.length →
            t.execute inputs (attempt + k) = .hang →
            ext.getD (k + 1) false = true) := by
  intro remaining
  induction remaining with
  | zero =>
    intro attempt reg lastError cancel invoc flags out hgo
    rw [retryGo_zero] at hgo
    injection hgo with hgo2
    refine ⟨[], by rw [← hgo2]; simp, fun h => absurd rfl h, ?_, ?_⟩
    · intro k hk; simp at hk
    · intro k hk; simp at hk
  | succ rem ih =>
    intro attempt reg lastError cancel invoc flags out hgo
    cases hx : t.execute inputs attempt with
    | ok v =>
      rw [retryGo_step_ok t inputs rem attempt reg lastError cancel invoc flags
          v hx] at hgo
      injection hgo with hgo2
      refine ⟨[cancel], by rw [← hgo2], fun _ => rfl, ?_, ?_⟩
      · intro k hk; simp at hk
      · intro k hk; simp at hk
    | hang =>
      cases ht : t.timeout with
      | none =>
        rw [retryGo_step_hang_none t inputs rem attempt reg lastError cancel
            invoc flags ht hx] at hgo
        exact absurd hgo (by simp)
      | some τ =>
        rw [retryGo_step_hang t inputs rem attempt reg lastError cancel invoc
            flags τ ht hx] at hgo
        obtain ⟨ext, hext, h0, h1, h2⟩ := ih (attempt + 1) reg (some Err.timeout)
          true (invoc + 1) (flags ++ [cancel]) out hgo
        refine ⟨cancel :: ext, ?_, fun _ => rfl, ?_, ?_⟩
        · rw [hext, List.append_assoc, List.singleton_append]
        · intro k hk
          cases k with
          | zero =>
            intro _
            have hne : ext ≠ [] := by
              intro h
              rw [h] at hk
              simp at hk
            rw [List.getD_cons_succ]
            exact h0 hne
          | succ k' =>
            intro hkd
            rw [List.getD_cons_succ] at hkd ⊢
            exact h1 k' (by simpa using hk) hkd
        · intro k hk
          cases k with
          | zero =>
            intro _
            have hne : ext ≠ [] := by
              intro h
              rw [h] at hk
              simp at hk
            rw [List.getD_cons_succ]
            exact h0 hne
          | succ k' =>
            intro hhang
            rw [List.getD_cons_succ]
            refine h2 k' (by simpa using hk) ?_
            rw [show attempt + 1 + k' = attempt + (k' + 1) by omega]
            exact hhang
    | fail e =>
      rw [retryGo_step_fail t inputs rem attempt reg lastError cancel invoc
          flags e hx] at hgo
      obtain ⟨ext, hext, h0, h1, h2⟩ := ih (attempt + 1) reg (some e)
        cancel (invoc + 1) (flags ++ [cancel]) out hgo
      refine ⟨cancel :: ext, ?_, fun _ => rfl, ?_, ?_⟩
      · rw [hext, List.append_assoc, List.singleton_append]
      · intro k hk
        cases k with
        | zero =>
          intro hkd
          have hne : ext ≠ [] := by
            intro h
            rw [h] at hk
            simp at hk
          rw [List.getD_cons_zero] at hkd
          rw [List.getD_cons_succ]
          rw [h0 hne, hkd]
        | succ k' =>
          intro hkd
          rw [List.getD_cons_succ] at hkd ⊢
          exact h1 k' (by simpa using hk) hkd
      · intro k hk
        cases k with
        | zero =>
          intro hhang
          rw [Nat.add_zero] at hhang
          rw [hhang] at hx
          exact absurd hx (by simp)
        | succ k' =>
          intro hhang
          rw [List.getD_cons_succ]
          refine h2 k' (by simpa using hk) ?_
          rw [show attempt + 1 + k' = attempt + (k' + 1) by omega]
          exact hhang

/-- C10: once a timeout fires on some attempt of a task, the cancel
flag stays set for every later attempt of the same run: the trace of
`should_cancel()` values observed at the start of each attempt is
monotone (the flag is never cleared), and every attempt after a
timed-out one observes the flag set. -/
theorem cancel_flag_persists
    (t : PyTask) (reg : TaskRegistry) (inputs : String → Option Val)
    (out : CallOut)
    (hres : resolveInputs t reg = .ok inputs)
    (hcall : PyTask.call t reg = some out) :
    (∀ i j, i ≤ j → j < out.flags.length →
      out.flags.getD i false = true → out.flags.getD j false = true)
    ∧ (∀ i, i + 1 < out.flags.length →
      t.execute inputs (i + 1) = .hang →
      ∀ j, i + 1 ≤ j → j < out.flags.length →
        out.flags.getD j false = true) := by
  unfold PyTask.call at hcall
  rw [hres] at hcall
  obtain ⟨ext, hext, h0, h1, h2⟩ := retryGo_flags t inputs
    t.policy.max_retries 1 reg none false 0 [] out hcall
  rw [List.nil_append] at hext
  subst hext
  have hmono : ∀ i j, i ≤ j → j < out.flags.length →
      out.flags.getD i false = true → out.flags.getD j false = true := by
    intro i j hij
    induction j, hij using Nat.le_induction with
    | base => intro _ hi; exact hi
    | succ j hij ihj =>
      intro hjlen hi
      exact h1 j hjlen (ihj (by omega) hi)
  refine ⟨hmono, ?_⟩
  intro i hi1 hhang j hj1 hjlen
  have hstep : out.flags.getD (i + 1) false = true := by
    refine h2 i hi1 ?_
    rw [show 1 + i = i + 1 by omega]
    exact hhang
  exact hmono (i + 1) j hj1 hjlen hstep

/-- Witness for C10: `hangOnce` times out on attempt 1 and succeeds on
attempt 2; the flag observed at the start of attempt 2 is set. -/
theorem cancel_flag_persists_witness :
    ∃ out, PyTask.call hangOnce emptyRegistry = some out
      ∧ out.flags = [false, true]
      ∧ out.flags.getD 1 false = true := by
  refine ⟨_, rfl, rfl, ?_⟩
  exact (cancel_flag_persists hangOnce emptyRegistry (fun _ => none) _ rfl rfl).2
    0 (by decide) (by decide) 1 le_rfl (by decide)

/-! ## Lemmas for the scheduler-level claim -/

/-- The retry loop only ever writes the running task's own id. -/
theorem retryGo_registry_other (t : PyTask) (inputs : String → Option Val) :
    ∀ (remaining attempt : Nat) (reg : TaskRegistry) (lastError : Option Err)
      (cancel : Bool) (invoc : Nat) (flags : List Bool) (out : CallOut)
      (id : String),
      retryGo t inputs remaining attempt reg lastError cancel invoc flags
        = some out →
      id ≠ t.task_id → out.registry id = reg id := by
  intro remaining
  induction remaining with
  | zero =>
    intro attempt reg lastError cancel invoc flags out id hgo hid
    rw [retryGo_zero] at hgo
    injection hgo with hgo2
    rw [← hgo2]
    unfold finalizeRetry
    split_ifs <;>
      simp [TaskRegistry.set_timeout, TaskRegistry.set_error,
        TaskRegistry.store, hid]
  | succ rem ih =>
    intro attempt reg lastError cancel invoc flags out id hgo hid
    cases hx : t.execute inputs attempt with
    | ok v =>
      rw [retryGo_step_ok t inputs rem attempt reg lastError cancel invoc flags
          v hx] at hgo
      injection hgo with hgo2
      rw [← hgo2]
      simp [TaskRegistry.set_result, TaskRegistry.store, hid]
    | hang =>
      cases ht : t.timeout with
      | none =>
        rw [retryGo_step_hang_none t inputs rem attempt reg lastError cancel
            invoc flags ht hx] at hgo
        exact absurd hgo (by simp)
      | some τ =>
        rw [retryGo_step_hang t inputs rem attempt reg lastError cancel invoc
            flags τ ht hx] at hgo
        exact ih (attempt + 1) reg (some Err.timeout) true (invoc + 1)
          (flags ++ [cancel]) out id hgo hid
    | fail e =>
      rw [retryGo_step_fail t inputs rem attempt reg lastError cancel invoc
          flags e hx] at hgo
      exact ih (attempt + 1) reg (some e) cancel (invoc + 1)
        (flags ++ [cancel]) out id hgo hid

/-- `Task.__call__` only ever writes the task's own id. -/
theorem call_registry_other (t : PyTask) (reg : TaskRegistry) (out : CallOut)
    (id : String) (hcall : PyTask.call t reg = some out)
    (hid : id ≠ t.task_id) : out.registry id = reg id := by
  unfold PyTask.call at hcall
  cases hres : resolveInputs t reg with
  | error e =>
    rw [hres] at hcall
    injection hcall with hcall2
    rw [← hcall2]
    simp [TaskRegistry.set_error, TaskRegistry.store, hid]
  | ok inputs =>
    rw [hres] at hcall
    exact retryGo_registry_other t inputs t.policy.max_retries 1 reg none false
      0 [] out id hcall hid

/-- Running one level only adds registry entries for ids in that level
(provided the task table maps each id to a task carrying that id). -/
theorem runLevel_new_ids (tasks : String → Option PyTask)
    (hcons : ∀ tid u, tasks tid = some u → u.task_id = tid) :
    ∀ (lvl : List String) (reg reg2 : TaskRegistry) (id : String),
      runLevel tasks lvl reg = .ok reg2 →
      (reg2 id).isSome = true →
      (reg id).isSome = true ∨ id ∈ lvl := by
  intro lvl
  induction lvl with
  | nil =>
    intro reg reg2 id hrun hmem
    injection hrun with h
    rw [h]
    exact Or.inl hmem
  | cons id0 rest ih =>
    intro reg reg2 id hrun hmem
    unfold runLevel at hrun
    cases htask : tasks id0 with
    | none => rw [htask] at hrun; exact absurd hrun (by simp)
    | some u =>
      rw [htask] at hrun
      dsimp only at hrun
      cases hcall : u.call reg with
      | none => rw [hcall] at hrun; exact absurd hrun (by simp)
      | some out =>
        rw [hcall] at hrun
        rcases ih out.registry reg2 id hrun hmem with hin | hin
        · by_cases hid : id = u.task_id
          · right
            rw [hid, hcons id0 u htask]
            exact List.mem_cons_self id0 rest
          · left
            rw [← call_registry_other u reg out id hcall hid]
            exact hin
        · exact Or.inr (List.mem_cons_of_mem id0 hin)

/-- Running the levels in order only adds registry entries for ids that
occur in some level. -/
theorem runLevels_new_ids (tasks : String → Option PyTask)
    (hcons : ∀ tid u, tasks tid = some u → u.task_id = tid) :
    ∀ (levels : List (List String)) (reg reg2 : TaskRegistry) (id : String),
      runLevels tasks levels reg = .ok reg2 →
      (reg2 id).isSome = true →
      (reg id).isSome = true ∨ ∃ lvl ∈ levels, id ∈ lvl := by
  intro levels
  induction levels with
  | nil =>
    intro reg reg2 id hrun hmem
    injection hrun with h
    rw [h]
    exact Or.inl hmem
  | cons lvl rest ih =>
    intro reg reg2 id hrun hmem
    unfold runLevels at hrun
    cases hlvl : runLevel tasks lvl reg with
    | ok regmid =>
      rw [hlvl] at hrun
      rcases ih regmid reg2 id hrun hmem with hin | ⟨l, hl, hidl⟩
      · rcases runLevel_new_ids tasks hcons lvl reg regmid id hlvl hin with h | h
        · exact Or.inl h
        · exact Or.inr ⟨lvl, List.mem_cons_self lvl rest, h⟩
      · exact Or.inr ⟨l, List.mem_cons_of_mem lvl hl, hidl⟩
    | keyError i => rw [hlvl] at hrun; exact absurd hrun (by simp)
    | diverge => rw [hlvl] at hrun; exact absurd hrun (by simp)

/-- The empty scheduler's task table is vacuously consistent. -/
theorem mk0_tasks_consistent (dt : Option ℚ) (drp : Option RetryPolicy) :
    ∀ tid u, ((TaskScheduler.mk0 dt drp).tasks tid) = some u →
      u.task_id = tid := by
  intro tid u h
  simp [TaskScheduler.mk0] at h

/-- `add_task` keeps the task table consistent: every stored task
carries the id it is stored under. -/
theorem add_task_tasks_consistent (s : TaskScheduler) (t : PyTask)
    (h : ∀ tid u, s.tasks tid = some u → u.task_id = tid) :
    ∀ tid u, ((s.add_task t).tasks tid) = some u → u.task_id = tid := by
  intro tid u hu
  unfold TaskScheduler.add_task at hu
  dsimp only at hu
  by_cases hk : tid = (applyDefaults s t).task_id
  · rw [if_pos hk] at hu
    injection hu with hu2
    rw [← hu2, hk]
  · rw [if_neg hk] at hu
    exact h tid u hu

/-- C1 amended: a node whose in-degree never reaches zero during
leveling — a cycle participant — is absent from every level, never
executed, and absent from the mapping returned by `execute()`, with no
error raised for it (concrete cycle a ↔ b plus standalone c); in
general, execution can only add registry entries for ids occurring in
some level.  (A task depending on a never-registered id is NOT such a
node: the phantom id itself enters level 0 and `execute()` raises
`KeyError` on it — see the counterexample theorem.) -/
theorem cycle_nodes_silently_omitted :
    (∀ (s : TaskScheduler) (id : String),
      (∀ tid u, s.tasks tid = some u → u.task_id = tid) →
      ((s.execute).get id).isSome = true →
      (s.registry id).isSome = true ∨ ∃ lvl ∈ s.topological_sort, id ∈ lvl)
    ∧ cycSched.topological_sort = [["c"]]
    ∧ (cycSched.execute).isOk = true
    ∧ (cycSched.execute).get "a" = none
    ∧ (cycSched.execute).get "b" = none
    ∧ ((cycSched.execute).get "c").isSome = true := by
  refine ⟨?_, by decide, rfl, rfl, rfl, rfl⟩
  intro s id hcons hget
  unfold TaskScheduler.execute at hget
  cases hrun : runLevels s.tasks s.topological_sort s.registry with
  | ok reg2 =>
    rw [hrun] at hget
    exact runLevels_new_ids s.tasks hcons s.topological_sort s.registry reg2
      id hrun hget
  | keyError i =>
    rw [hrun] at hget
    simp [ExecResult.get] at hget
  | diverge =>
    rw [hrun] at hget
    simp [ExecResult.get] at hget

/-- Witness for the general part of the C1 theorem, applied to the
cycle scheduler at the executed id "c". -/
theorem cycle_nodes_silently_omitted_witness :
    (cycSched.registry "c").isSome = true
      ∨ ∃ lvl ∈ cycSched.topological_sort, "c" ∈ lvl :=
  cycle_nodes_silently_omitted.1 cycSched "c"
    (add_task_tasks_consistent _ taskCycC
      (add_task_tasks_consistent _ taskCycB
        (add_task_tasks_consistent _ taskCycA (mk0_tasks_consistent none none))))
    rfl

/-- C1 counterexample: in a scheduler holding one task "t" that requires
the never-registered id "p", the phantom id "p" has in-degree zero from
the start, so it enters level 0, "t" reaches in-degree zero when "p" is
processed and enters level 1 (so "t" is NOT absent from every level),
and `execute()` raises `KeyError` at `self.tasks["p"]` instead of
silently omitting anything. -/
theorem unregistered_dep_scheduled_and_keyerror :
    schedPhantom.topological_sort = [["p"], ["t"]]
    ∧ (∃ lvl ∈ schedPhantom.topological_sort, "t" ∈ lvl)
    ∧ schedPhantom.execute = ExecResult.keyError "p" := by
  refine ⟨by decide, ⟨["t"], by decide, by decide⟩, rfl⟩
